import Mathlib

/-!
Verification of the aggregation primitives and the request validation gate of
the FinancialConversationalAgent repository, shallowly embedded from
`agent_tools_utils.py`, `agent_models_utils.py` and `main.py`.

Modelling conventions:
* Python `float` values are modelled as exact rationals (`ℚ`); decimal string
  parsing is exact rather than IEEE-rounded.
* A Python function that can raise `ValueError` is modelled as
  `Except ToolError _`; the three `ToolError` constructors record the raise
  site (explicit format check, explicit range check, library parse failure) —
  in the source all of them are `ValueError`.
* Regex `\d` is modelled as the ASCII digits `0`–`9` (the source's regexes
  also admit other Unicode digits, which no caller exercises).
* Error message strings are abridged (the source quotes offending values).
* Sums are modelled as exact rational accumulation.  The source accumulates
  IEEE doubles left to right, which is order-dependent for general float
  amounts; a permutation statement about a sum therefore carries hypotheses
  (non-negative integer amounts, total at most 2^53) under which the
  source's accumulation is exact as well, so the model and the source agree.
-/

attribute [local semireducible] Rat.add Rat.mul Rat.sub

namespace FinAgent

/-! ### Character and digit helpers -/

def isDigitChar (c : Char) : Bool := '0' ≤ c && c ≤ '9'

def parseNatDigits (cs : List Char) : Nat :=
  cs.foldl (fun a c => a * 10 + (c.toNat - 48)) 0

/-! ### Proleptic Gregorian calendar (mirrors CPython's `datetime` ordinals) -/

def isLeapYear (y : Nat) : Bool := y % 4 == 0 && (y % 100 != 0 || y % 400 == 0)

def daysInMonth (y m : Nat) : Nat :=
  if m = 2 then (if isLeapYear y then 29 else 28)
  else if m = 4 ∨ m = 6 ∨ m = 9 ∨ m = 11 then 30
  else 31

def daysBeforeYear (y : Nat) : Nat :=
  365 * (y - 1) + (y - 1) / 4 + (y - 1) / 400 - (y - 1) / 100

def daysBeforeMonth (y m : Nat) : Nat :=
  (List.range (m - 1)).foldl (fun a i => a + daysInMonth y (i + 1)) 0

/-- Proleptic Gregorian ordinal: 0001-01-01 is day 1. -/
def ymdToOrdinal (y m d : Nat) : Nat :=
  daysBeforeYear y + daysBeforeMonth y m + d

/-- Seconds from the epoch 0001-01-01T00:00:00 UTC to midnight of the given day. -/
def midnightSec (y m d : Nat) : ℚ :=
  ((ymdToOrdinal y m d : ℚ) - 1) * 86400

/-! ### The `^\d{4}-\d{2}-\d{2}$` pattern of the date tools -/

def dateShape : List Char → Bool
  | [a, b, c, d, s1, e, f, s2, g, h] =>
    isDigitChar a && isDigitChar b && isDigitChar c && isDigitChar d &&
    s1 == '-' && isDigitChar e && isDigitChar f &&
    s2 == '-' && isDigitChar g && isDigitChar h
  | _ => false

/-- `re.match(r"^\d{4}-\d{2}-\d{2}$", s)`: the `$` also matches just before a
single trailing newline. -/
def matchesDatePattern (s : String) : Bool :=
  dateShape s.toList ||
    (s.toList.getLast? == some '\n' && dateShape s.toList.dropLast)

/-! ### Errors raised by the tools (all `ValueError` in the source) -/

inductive ToolError
  | formatError (msg : String)
  | rangeError (msg : String)
  | parseError (msg : String)
deriving DecidableEq

def ToolError.isFormatFamily : ToolError → Bool
  | .formatError _ => true
  | .parseError _ => true
  | .rangeError _ => false

instance {ε α : Type} [DecidableEq ε] [DecidableEq α] : DecidableEq (Except ε α) := fun x y =>
  match x, y with
  | .ok a, .ok b =>
    if h : a = b then .isTrue (by rw [h]) else .isFalse (by intro hc; cases hc; exact h rfl)
  | .error a, .error b =>
    if h : a = b then .isTrue (by rw [h]) else .isFalse (by intro hc; cases hc; exact h rfl)
  | .ok _, .error _ => .isFalse (by intro hc; cases hc)
  | .error _, .ok _ => .isFalse (by intro hc; cases hc)

def resIsOk {α : Type} : Except ToolError α → Bool
  | .ok _ => true
  | .error _ => false

def resIsRangeError {α : Type} : Except ToolError α → Bool
  | .error (.rangeError _) => true
  | _ => false

/-- The result is a date/number format failure (the spec's FormatError class). -/
def resIsFormatFailure {α : Type} : Except ToolError α → Bool
  | .error e => e.isFormatFamily
  | _ => false

/-! ### `datetime.strptime(s, "%Y-%m-%d").replace(tzinfo=timezone.utc)` -/

def strptimeYMD (s : String) : Except ToolError ℚ :=
  match s.toList with
  | [y1, y2, y3, y4, c1, m1, m2, c2, d1, d2] =>
    if isDigitChar y1 && isDigitChar y2 && isDigitChar y3 && isDigitChar y4 &&
       c1 == '-' && isDigitChar m1 && isDigitChar m2 &&
       c2 == '-' && isDigitChar d1 && isDigitChar d2 then
      let y := parseNatDigits [y1, y2, y3, y4]
      let m := parseNatDigits [m1, m2]
      let d := parseNatDigits [d1, d2]
      if m < 1 ∨ 12 < m ∨ d < 1 ∨ 31 < d then
        .error (.parseError ("time data " ++ s ++ " does not match format %Y-%m-%d"))
      else if daysInMonth y m < d then
        .error (.parseError "day is out of range for month")
      else if y = 0 then
        .error (.parseError "year 0 is out of range")
      else
        .ok (midnightSec y m d)
    else
      .error (.parseError ("time data " ++ s ++ " does not match format %Y-%m-%d"))
  | _ => .error (.parseError ("time data " ++ s ++ " does not match format %Y-%m-%d"))

/-! ### `s.replace('Z', '+00:00')` and `datetime.fromisoformat(...).astimezone(utc)` -/

def replaceZChars : List Char → List Char
  | [] => []
  | c :: cs =>
    if c = 'Z' then '+' :: '0' :: '0' :: ':' :: '0' :: '0' :: replaceZChars cs
    else c :: replaceZChars cs

def read2D : List Char → Option (Nat × List Char)
  | a :: b :: r =>
    if isDigitChar a && isDigitChar b then some (parseNatDigits [a, b], r) else none
  | _ => none

def parseOffMag (cs : List Char) : Option ℚ := do
  let (oh, r1) ← read2D cs
  match r1 with
  | ':' :: r2 => do
    let (om, r3) ← read2D r2
    if 60 ≤ om ∨ 24 ≤ oh then none
    else
      match r3 with
      | [] => some ((oh * 3600 + om * 60 : Nat) : ℚ)
      | ':' :: r4 => do
        let (os, r5) ← read2D r4
        if 60 ≤ os ∨ r5 ≠ [] then none
        else some ((oh * 3600 + om * 60 + os : Nat) : ℚ)
      | _ => none
  | _ => none

def parseOffset : List Char → Option ℚ
  | '+' :: r => parseOffMag r
  | '-' :: r => (parseOffMag r).map (fun q => -q)
  | _ => none

def withFrac (h mi s : Nat) (r : List Char) : Option ℚ := do
  let ds := r.takeWhile isDigitChar
  let rest := r.dropWhile isDigitChar
  if ds.isEmpty then none
  else
    let d6 := ds.take 6
    let frac : ℚ := (parseNatDigits d6 : ℚ) / ((10 : ℚ) ^ d6.length)
    let off ← parseOffset rest
    some (((h * 3600 + mi * 60 + s : Nat) : ℚ) + frac - off)

def parseTimePart (cs : List Char) : Option ℚ := do
  let (h, r1) ← read2D cs
  if 24 ≤ h then none
  else
    match r1 with
    | ':' :: r2 => do
      let (mi, r3) ← read2D r2
      if 60 ≤ mi then none
      else
        match r3 with
        | ':' :: r4 => do
          let (s, r5) ← read2D r4
          if 60 ≤ s then none
          else
            match r5 with
            | '.' :: r6 => withFrac h mi s r6
            | ',' :: r6 => withFrac h mi s r6
            | _ => do
              let off ← parseOffset r5
              some (((h * 3600 + mi * 60 + s : Nat) : ℚ) - off)
        | _ => do
          let off ← parseOffset r3
          some (((h * 3600 + mi * 60 : Nat) : ℚ) - off)
    | _ => do
      let off ← parseOffset r1
      some (((h * 3600 : Nat) : ℚ) - off)

/-- `datetime.fromisoformat` on the Z-replaced string, normalized to UTC and
rendered as seconds from the epoch.  A string with no UTC offset produces a
naive datetime whose `astimezone` depends on the host timezone; that case is
outside the model and returns `none`. -/
def parseIsoChars (cs : List Char) : Option ℚ :=
  match cs with
  | y1 :: y2 :: y3 :: y4 :: c1 :: m1 :: m2 :: c2 :: d1 :: d2 :: rest =>
    if isDigitChar y1 && isDigitChar y2 && isDigitChar y3 && isDigitChar y4 &&
       c1 == '-' && isDigitChar m1 && isDigitChar m2 &&
       c2 == '-' && isDigitChar d1 && isDigitChar d2 then
      let y := parseNatDigits [y1, y2, y3, y4]
      let m := parseNatDigits [m1, m2]
      let d := parseNatDigits [d1, d2]
      if 1 ≤ y ∧ 1 ≤ m ∧ m ≤ 12 ∧ 1 ≤ d ∧ d ≤ daysInMonth y m then
        match rest with
        | [] => none
        | _ :: timecs => (parseTimePart timecs).map (fun q => midnightSec y m d + q)
      else none
    else none
  | _ => none

/-! ### `float(s)` on strings (exact-rational idealization; `inf`, `nan` and
digit-group underscores are not modelled) -/

def isSpaceChar (c : Char) : Bool := c = ' ' ∨ c = '\t' ∨ c = '\n' ∨ c = '\x0d'

def stripWs (cs : List Char) : List Char :=
  ((cs.dropWhile isSpaceChar).reverse.dropWhile isSpaceChar).reverse

def parseMantissa (cs : List Char) : Option (ℚ × List Char) :=
  let ip := cs.takeWhile isDigitChar
  let r1 := cs.dropWhile isDigitChar
  match r1 with
  | '.' :: r2 =>
    let fp := r2.takeWhile isDigitChar
    let r3 := r2.dropWhile isDigitChar
    if ip.isEmpty && fp.isEmpty then none
    else some ((parseNatDigits ip : ℚ) + (parseNatDigits fp : ℚ) / ((10 : ℚ) ^ fp.length), r3)
  | _ =>
    if ip.isEmpty then none else some ((parseNatDigits ip : ℚ), r1)

def applyExp (m : ℚ) (sgn : Bool) (e : Nat) : ℚ :=
  if sgn then m * (10 : ℚ) ^ e else m / (10 : ℚ) ^ e

def parseExpPart (m : ℚ) (cs : List Char) : Option ℚ :=
  let (sgn, r) :=
    match cs with
    | '+' :: r => (true, r)
    | '-' :: r => (false, r)
    | _ => (true, cs)
  let ds := r.takeWhile isDigitChar
  let rest := r.dropWhile isDigitChar
  if ds.isEmpty ∨ ¬ rest.isEmpty then none
  else some (applyExp m sgn (parseNatDigits ds))

def pyFloat (s : String) : Option ℚ :=
  let cs := stripWs s.toList
  let (sgn, cs2) : ℚ × List Char :=
    match cs with
    | '+' :: r => (1, r)
    | '-' :: r => (-1, r)
    | _ => (1, cs)
  match parseMantissa cs2 with
  | none => none
  | some (m, rest) =>
    match rest with
    | [] => some (sgn * m)
    | 'e' :: r => (parseExpPart m r).map (sgn * ·)
    | 'E' :: r => (parseExpPart m r).map (sgn * ·)
    | _ => none

/-! ### Data model (`agent_models_utils.py`) -/

/-- A Python amount/balance value: numeric (`int`/`float`/`bool`) or string. -/
inductive Amount
  | num (q : ℚ)
  | str (s : String)
deriving DecidableEq

inductive TransactionType
  | credit
  | debit
deriving DecidableEq

def TransactionType.value : TransactionType → String
  | .credit => "credit"
  | .debit => "debit"

structure TransactionTrim where
  transactionId : String
  amount : Amount
  type : String
  currency : String
  balance : Amount
  transactionDate : String
deriving DecidableEq

/-- `float(t['amount'])` as performed by the tools. -/
def floatOfAmount : Amount → Except ToolError ℚ
  | .num q => .ok q
  | .str s =>
    match pyFloat s with
    | some q => .ok q
    | none => .error (.parseError ("could not convert string to float: " ++ s))

/-- `convert_to_float` from `agent_models_utils.py`: strings have every comma
removed before the `float` conversion; `none` models the raised `ValueError`. -/
def convert_to_float : Amount → Option ℚ
  | .str s => pyFloat (String.mk (s.toList.filter (fun c => c ≠ ',')))
  | .num q => some q

/-- `datetime.fromisoformat(t['transactionDate'].replace('Z', '+00:00'))
.astimezone(timezone.utc)` as performed by the date tools. -/
def txTimestamp (t : TransactionTrim) : Except ToolError ℚ :=
  match parseIsoChars (replaceZChars t.transactionDate.toList) with
  | some q => .ok q
  | none => .error (.parseError ("Invalid isoformat string: " ++ t.transactionDate))

/-! ### Effectful list traversals used by the tools -/

/-- A Python list comprehension whose condition may raise, left to right. -/
def filterME (p : TransactionTrim → Except ToolError Bool) :
    List TransactionTrim → Except ToolError (List TransactionTrim)
  | [] => .ok []
  | t :: ts =>
    match p t with
    | .error e => .error e
    | .ok b =>
      match filterME p ts with
      | .error e => .error e
      | .ok rest => .ok (if b then t :: rest else rest)

def sumFloatsFrom (acc : ℚ) : List TransactionTrim → Except ToolError ℚ
  | [] => .ok acc
  | t :: ts =>
    match floatOfAmount t.amount with
    | .error e => .error e
    | .ok q => sumFloatsFrom (acc + q) ts

/-- `sum(float(t['amount']) for t in l)`, raising at the first bad amount. -/
def sumFloats (l : List TransactionTrim) : Except ToolError ℚ :=
  sumFloatsFrom 0 l

/-! ### The six aggregation primitives (`agent_tools_utils.py`) -/

/-- Python truthiness of an optional string argument. -/
def strTruthy : Option String → Bool
  | none => false
  | some s => !s.isEmpty

def optStr : Option String → String
  | none => ""
  | some s => s

/-- Timestamp predicate of the date tools: `start <= ts <= end`, raising when
the transaction date fails to parse. -/
def dateWindowTest (lo hi : ℚ) (t : TransactionTrim) : Except ToolError Bool :=
  match txTimestamp t with
  | .error e => .error e
  | .ok ts => .ok (decide (lo ≤ ts) && decide (ts ≤ hi))

def filter_by_date_and_sum (transactions : List TransactionTrim)
    (start_date end_date : Option String) : Except ToolError ℚ :=
  if strTruthy start_date && !matchesDatePattern (optStr start_date) then
    .error (.formatError "start_date must be in YYYY-MM-DD format")
  else if strTruthy end_date && !matchesDatePattern (optStr end_date) then
    .error (.formatError "end_date must be in YYYY-MM-DD format")
  else if strTruthy start_date then
    match strptimeYMD (optStr start_date) with
    | .error e => .error e
    | .ok lo =>
      match (if strTruthy end_date then strptimeYMD (optStr end_date) else .ok lo) with
      | .error e => .error e
      | .ok hi =>
        match filterME (dateWindowTest lo hi) transactions with
        | .error e => .error e
        | .ok filtered => sumFloats filtered
  else sumFloats transactions

def filter_by_date_and_count (transactions : List TransactionTrim)
    (start_date end_date : Option String) : Except ToolError Int :=
  if strTruthy start_date && !matchesDatePattern (optStr start_date) then
    .error (.formatError "start_date must be in YYYY-MM-DD format")
  else if strTruthy end_date && !matchesDatePattern (optStr end_date) then
    .error (.formatError "end_date must be in YYYY-MM-DD format")
  else if strTruthy start_date then
    match strptimeYMD (optStr start_date) with
    | .error e => .error e
    | .ok lo =>
      match (if strTruthy end_date then strptimeYMD (optStr end_date) else .ok lo) with
      | .error e => .error e
      | .ok hi =>
        match filterME (dateWindowTest lo hi) transactions with
        | .error e => .error e
        | .ok filtered => .ok filtered.length
  else .ok transactions.length

def typeFiltered (transaction_type : Option TransactionType)
    (transactions : List TransactionTrim) : List TransactionTrim :=
  match transaction_type with
  | some ty => transactions.filter (fun t => t.type == ty.value)
  | none => transactions

def filter_by_type_and_sum (transactions : List TransactionTrim)
    (transaction_type : Option TransactionType) : Except ToolError ℚ :=
  let filtered := typeFiltered transaction_type transactions
  if filtered.isEmpty then .ok 0 else sumFloats filtered

def filter_by_type_and_count (transactions : List TransactionTrim)
    (transaction_type : Option TransactionType) : Except ToolError Int :=
  .ok (typeFiltered transaction_type transactions).length

def negOpt : Option ℚ → Bool
  | some q => decide (q < 0)
  | none => false

def minTest (mn : ℚ) (t : TransactionTrim) : Except ToolError Bool :=
  match floatOfAmount t.amount with
  | .error e => .error e
  | .ok q => .ok (decide (mn ≤ q))

def maxTest (mx : ℚ) (t : TransactionTrim) : Except ToolError Bool :=
  match floatOfAmount t.amount with
  | .error e => .error e
  | .ok q => .ok (decide (q ≤ mx))

def filter_by_amount_and_sum (transactions : List TransactionTrim)
    (min_amount max_amount : Option ℚ) : Except ToolError ℚ :=
  if negOpt min_amount then .error (.rangeError "min_amount must be non-negative")
  else if negOpt max_amount then .error (.rangeError "max_amount must be non-negative")
  else
    match (match min_amount with
           | some mn => filterME (minTest mn) transactions
           | none => .ok transactions) with
    | .error e => .error e
    | .ok f1 =>
      match (match max_amount with
             | some mx => filterME (maxTest mx) f1
             | none => .ok f1) with
      | .error e => .error e
      | .ok f2 => sumFloats f2

def filter_by_amount_and_count (transactions : List TransactionTrim)
    (min_amount max_amount : Option ℚ) : Except ToolError Int :=
  if negOpt min_amount then .error (.rangeError "min_amount must be non-negative")
  else if negOpt max_amount then .error (.rangeError "max_amount must be non-negative")
  else
    match (match min_amount with
           | some mn => filterME (minTest mn) transactions
           | none => .ok transactions) with
    | .error e => .error e
    | .ok f1 =>
      match (match max_amount with
             | some mx => filterME (maxTest mx) f1
             | none => .ok f1) with
      | .error e => .error e
      | .ok f2 => .ok f2.length

/-! ### Request validation gate (`main.py`) -/

/-- A dynamically typed Python value, as far as the gate inspects one.
`vnone` stands for both `None` and an absent key (`dict.get`). -/
inductive PyVal
  | vstr (s : String)
  | vint (n : Int)
  | vfloat (q : ℚ)
  | vbool (b : Bool)
  | vnone
deriving DecidableEq

def isStrV : PyVal → Bool
  | .vstr _ => true
  | _ => false

def strV : PyVal → String
  | .vstr s => s
  | _ => ""

/-- `isinstance(x, (str, int, float))`; `bool` is a subclass of `int` in the
source language, so `vbool` qualifies. -/
def isNumOrStrV : PyVal → Bool
  | .vstr _ => true
  | .vint _ => true
  | .vfloat _ => true
  | .vbool _ => true
  | .vnone => false

def isBoolV : PyVal → Bool
  | .vbool _ => true
  | _ => false

/-- One inbound transaction dictionary, holding whatever the caller sent in
the six inspected keys. -/
structure RawTransaction where
  transactionId : PyVal
  amount : PyVal
  type : PyVal
  currency : PyVal
  balance : PyVal
  transactionDate : PyVal
deriving DecidableEq

/-- The `transactions` member of a request: either a Python list of
transaction dictionaries or some value that is not a list. -/
inductive TransField
  | pylist (ts : List RawTransaction)
  | nonList (v : PyVal)
deriving DecidableEq

structure InvokeRequest where
  prompt : PyVal
  thread_id : PyVal
  transactions : TransField
  get_audio : PyVal
deriving DecidableEq

/-- `re.match(r"^\d{4}-\d{2}-\d{2}T.*Z$", s)`: ten date characters, a literal
`T`, then any characters other than a newline, ending in `Z` (`$` also matches
just before one trailing newline). -/
def isoWireShape : List Char → Bool
  | a :: b :: c :: d :: s1 :: e :: f :: s2 :: g :: h :: 'T' :: rest =>
    isDigitChar a && isDigitChar b && isDigitChar c && isDigitChar d &&
    s1 == '-' && isDigitChar e && isDigitChar f &&
    s2 == '-' && isDigitChar g && isDigitChar h &&
    rest.getLast? == some 'Z' && rest.dropLast.all (· ≠ '\n')
  | _ => false

def matchesIsoWirePattern (s : String) : Bool :=
  isoWireShape s.toList ||
    (s.toList.getLast? == some '\n' && isoWireShape s.toList.dropLast)

/-- The per-record checks of `validate_invoke_request`, in source order. -/
def validateRecord (t : RawTransaction) : Except String Unit :=
  if !isStrV t.transactionId then .error "transactionId must be a string"
  else if !isNumOrStrV t.amount then .error "amount must be a number or string"
  else if t.type ≠ .vstr "credit" ∧ t.type ≠ .vstr "debit" then
    .error "type must be credit or debit"
  else if t.currency ≠ .vstr "NGN" then .error "currency must be NGN"
  else if !isNumOrStrV t.balance then .error "balance must be a number or string"
  else if !(isStrV t.transactionDate && matchesIsoWirePattern (strV t.transactionDate)) then
    .error "transactionDate must be in ISO 8601 format"
  else .ok ()

def validateRecords : List RawTransaction → Except String Unit
  | [] => .ok ()
  | t :: ts =>
    match validateRecord t with
    | .error e => .error e
    | .ok _ => validateRecords ts

def validate_invoke_request (r : InvokeRequest) : Except String Unit :=
  if !isStrV r.prompt || (strV r.prompt).isEmpty then
    .error "prompt must be a non-empty string"
  else if !isStrV r.thread_id || (strV r.thread_id).isEmpty then
    .error "thread_id must be a non-empty string"
  else
    match r.transactions with
    | .nonList _ => .error "transactions must be a list"
    | .pylist ts =>
      if r.get_audio ≠ .vnone ∧ !isBoolV r.get_audio then
        .error "get_audio must be a boolean"
      else validateRecords ts

/-- What `invoke_graph` does with a request before any engine work:
a `ValueError` from the gate becomes an HTTP 400 client error and the decision
engine is never invoked; otherwise the engine is invoked on the validated,
date-descending-sorted payload. -/
inductive GraphOutcome
  | clientError (detail : String)
  | invoked (prompt : String) (thread_id : String)
      (transactions : List RawTransaction) (get_audio : Bool)
deriving DecidableEq

/-- Stable insertion for descending `transactionDate` order, matching
`sorted(transactions, key=lambda x: x['transactionDate'], reverse=True)`. -/
def insertDescByDate (x : RawTransaction) : List RawTransaction → List RawTransaction
  | [] => [x]
  | y :: ys =>
    if strV x.transactionDate ≤ strV y.transactionDate then y :: insertDescByDate x ys
    else x :: y :: ys

def sortDescByDate (l : List RawTransaction) : List RawTransaction :=
  l.foldl (fun acc x => insertDescByDate x acc) []

def invoke_graph (r : InvokeRequest) : GraphOutcome :=
  match validate_invoke_request r, r.transactions with
  | .error e, _ => .clientError ("Invalid input: " ++ e)
  | .ok _, .nonList _ =>
    -- dead branch: validation already rejected any non-list payload
    .clientError "Invalid input: transactions must be a list"
  | .ok _, .pylist ts =>
    .invoked (strV r.prompt) (strV r.thread_id) (sortDescByDate ts)
      (match r.get_audio with
       | .vbool b => b
       | _ => false)

def GraphOutcome.isClientError : GraphOutcome → Bool
  | .clientError _ => true
  | .invoked _ _ _ _ => false

/-- The record invariants of §3, as one Boolean predicate. -/
def recordValidB (t : RawTransaction) : Bool :=
  isStrV t.transactionId && isNumOrStrV t.amount &&
  (t.type == .vstr "credit" || t.type == .vstr "debit") &&
  t.currency == .vstr "NGN" && isNumOrStrV t.balance &&
  (isStrV t.transactionDate && matchesIsoWirePattern (strV t.transactionDate))

/-! ### Well-formedness of individual transactions, and pure views of the
effectful pipelines -/

/-- The amount survives `float(...)`. -/
def amountOk (t : TransactionTrim) : Bool := resIsOk (floatOfAmount t.amount)

def amountVal (t : TransactionTrim) : ℚ :=
  match floatOfAmount t.amount with
  | .ok q => q
  | .error _ => 0

/-- The transaction date survives `fromisoformat` after Z-replacement. -/
def tsOk (t : TransactionTrim) : Bool := resIsOk (txTimestamp t)

def tsVal (t : TransactionTrim) : ℚ :=
  match txTimestamp t with
  | .ok q => q
  | .error _ => 0

def inWindow (lo hi : ℚ) (t : TransactionTrim) : Bool :=
  decide (lo ≤ tsVal t) && decide (tsVal t ≤ hi)

def amtPred (mn mx : Option ℚ) (t : TransactionTrim) : Bool :=
  (match mn with
   | some m => decide (m ≤ amountVal t)
   | none => true) &&
  (match mx with
   | some m => decide (amountVal t ≤ m)
   | none => true)

/-- The supplied date parses under `strptime` (regex shape and calendar both). -/
def calendarOkB (s : String) : Bool := resIsOk (strptimeYMD s)

/-- Modelled from the spec: membership in the inclusive window
"start_date 00:00 ≤ timestamp ≤ end_date 23:59:59" (UTC), given the two
midnights. -/
def specInWindowB (startMid endMid ts : ℚ) : Bool :=
  decide (startMid ≤ ts) && decide (ts ≤ endMid + 86399)

/-- Replace only the kind field of a transaction. -/
def retype (ty : String) (t : TransactionTrim) : TransactionTrim :=
  { t with type := ty }

/-! ### Concrete sample data used by individual claim theorems -/

def txC1 : TransactionTrim :=
  ⟨"c1", .num 100, "debit", "NGN", .num 0, "2025-01-15T10:00:00Z"⟩

def txC1mid : TransactionTrim :=
  ⟨"c1m", .num 100, "debit", "NGN", .num 0, "2025-01-15T00:00:00Z"⟩

def txC2credit : TransactionTrim :=
  ⟨"c2a", .num 100, "credit", "NGN", .num 0, "2025-01-15T00:00:00Z"⟩

def txC2debit : TransactionTrim :=
  ⟨"c2b", .num 50, "debit", "NGN", .num 0, "2025-01-15T00:00:00Z"⟩

def txC3comma : TransactionTrim :=
  ⟨"c3", .str "1,000", "debit", "NGN", .num 0, "2025-01-15T00:00:00Z"⟩

def txC3num : TransactionTrim :=
  ⟨"c3n", .num 1000, "debit", "NGN", .num 0, "2025-01-15T00:00:00Z"⟩

def txC4a : TransactionTrim :=
  ⟨"c4a", .str "1,000", "debit", "NGN", .num 0, "2025-01-15T00:00:00Z"⟩

def txC4b : TransactionTrim :=
  ⟨"c4b", .str "2,000", "debit", "NGN", .num 0, "2025-01-15T00:00:00Z"⟩

def txC4w1 : TransactionTrim :=
  ⟨"c4w1", .num 10, "debit", "NGN", .num 0, "2025-01-15T00:00:00Z"⟩

def txC4w2 : TransactionTrim :=
  ⟨"c4w2", .num 20, "credit", "NGN", .num 0, "2025-02-15T00:00:00Z"⟩

def reqC5bad : InvokeRequest :=
  ⟨.vstr "", .vstr "thread-1", .pylist [], .vnone⟩

def txC6 : TransactionTrim :=
  ⟨"c6", .num 100, "debit", "NGN", .num 0, "2025-01-15T00:00:00Z"⟩

def txsC7 : List TransactionTrim :=
  [⟨"a", .num 100, "debit", "NGN", .num 0, "2025-01-01T00:00:00Z"⟩,
   ⟨"b", .num 500, "debit", "NGN", .num 0, "2025-01-02T00:00:00Z"⟩,
   ⟨"c", .num 1500, "debit", "NGN", .num 0, "2025-01-03T00:00:00Z"⟩,
   ⟨"d", .num 2000, "debit", "NGN", .num 0, "2025-01-04T00:00:00Z"⟩,
   ⟨"e", .num 2500, "debit", "NGN", .num 0, "2025-01-05T00:00:00Z"⟩]

def txC8 : TransactionTrim :=
  ⟨"c8", .num 100, "debit", "NGN", .num 0, "2025-01-15T00:00:00Z"⟩

def txsC9 : List TransactionTrim :=
  [⟨"c9a", .num 40, "debit", "NGN", .num 0, "2025-01-15T00:00:00Z"⟩,
   ⟨"c9b", .num 60, "debit", "NGN", .num 0, "2025-01-16T00:00:00Z"⟩]

def txsC10 : List TransactionTrim :=
  [⟨"c10a", .num 70, "debit", "NGN", .num 0, "2025-01-15T00:00:00Z"⟩,
   ⟨"c10b", .num 30, "credit", "NGN", .num 0, "2030-06-01T00:00:00Z"⟩]

theorem floatOfAmount_of_ok {t : TransactionTrim} (h : amountOk t = true) :
    floatOfAmount t.amount = .ok (amountVal t) := by
  unfold amountOk resIsOk at h
  unfold amountVal
  cases hf : floatOfAmount t.amount with
  | ok q => rfl
  | error e => rw [hf] at h; exact absurd h (by simp)

theorem txTimestamp_of_ok {t : TransactionTrim} (h : tsOk t = true) :
    txTimestamp t = .ok (tsVal t) := by
  unfold tsOk resIsOk at h
  unfold tsVal
  cases hf : txTimestamp t with
  | ok q => rfl
  | error e => rw [hf] at h; exact absurd h (by simp)

theorem filterME_ok {p : TransactionTrim → Except ToolError Bool}
    {q : TransactionTrim → Bool} :
    ∀ {l : List TransactionTrim}, (∀ t ∈ l, p t = .ok (q t)) →
      filterME p l = .ok (l.filter q)
  | [], _ => rfl
  | t :: ts, h => by
    have ht : p t = .ok (q t) := h t (List.mem_cons_self t ts)
    have hrest := filterME_ok (l := ts) (fun x hx => h x (List.mem_cons_of_mem t hx))
    simp only [filterME, ht, hrest, List.filter_cons]

theorem sumFloatsFrom_ok :
    ∀ {l : List TransactionTrim}, (∀ t ∈ l, amountOk t = true) →
      ∀ a : ℚ, sumFloatsFrom a l = .ok (a + (l.map amountVal).sum)
  | [], _, a => by simp [sumFloatsFrom]
  | t :: ts, h, a => by
    have ht := floatOfAmount_of_ok (h t (List.mem_cons_self t ts))
    have hrest := sumFloatsFrom_ok (l := ts) (fun x hx => h x (List.mem_cons_of_mem t hx))
    simp only [sumFloatsFrom, ht, hrest, List.map_cons, List.sum_cons]
    rw [add_assoc]

theorem sumFloats_ok {l : List TransactionTrim} (h : ∀ t ∈ l, amountOk t = true) :
    sumFloats l = .ok ((l.map amountVal).sum) := by
  rw [sumFloats, sumFloatsFrom_ok h 0, zero_add]

theorem dateWindowTest_of_ok {t : TransactionTrim} (h : tsOk t = true) (lo hi : ℚ) :
    dateWindowTest lo hi t = .ok (inWindow lo hi t) := by
  rw [dateWindowTest, txTimestamp_of_ok h, inWindow]

theorem minTest_of_ok {t : TransactionTrim} (h : amountOk t = true) (mn : ℚ) :
    minTest mn t = .ok (decide (mn ≤ amountVal t)) := by
  rw [minTest, floatOfAmount_of_ok h]

theorem maxTest_of_ok {t : TransactionTrim} (h : amountOk t = true) (mx : ℚ) :
    maxTest mx t = .ok (decide (amountVal t ≤ mx)) := by
  rw [maxTest, floatOfAmount_of_ok h]

/-! ### Pure characterizations of the primitives on well-formed inputs -/

theorem tsum_eval {l : List TransactionTrim} (tt : Option TransactionType)
    (h : ∀ t ∈ l, amountOk t = true) :
    filter_by_type_and_sum l tt = .ok (((typeFiltered tt l).map amountVal).sum) := by
  rw [filter_by_type_and_sum]
  cases he : (typeFiltered tt l).isEmpty with
  | true =>
    rw [List.isEmpty_iff] at he
    simp [he]
  | false =>
    simp only [Bool.false_eq_true, if_false]
    refine sumFloats_ok (fun t ht => h t ?_)
    cases tt with
    | none => exact ht
    | some ty => exact (List.mem_filter.mp ht).1

theorem tcount_eval (l : List TransactionTrim) (tt : Option TransactionType) :
    filter_by_type_and_count l tt = .ok (typeFiltered tt l).length := rfl

theorem asum_eval {l : List TransactionTrim} {mn mx : Option ℚ}
    (h1 : negOpt mn = false) (h2 : negOpt mx = false)
    (h : ∀ t ∈ l, amountOk t = true) :
    filter_by_amount_and_sum l mn mx = .ok (((l.filter (amtPred mn mx)).map amountVal).sum) := by
  have hmem1 : ∀ (p : TransactionTrim → Bool), ∀ t ∈ l.filter p, amountOk t = true :=
    fun p t ht => h t (List.mem_filter.mp ht).1
  rw [filter_by_amount_and_sum.eq_def, h1, h2]
  simp only [Bool.false_eq_true, if_false]
  cases mn with
  | none =>
    cases mx with
    | none =>
      have hf : l.filter (amtPred none none) = l := by
        rw [List.filter_congr (fun x _ => (by simp [amtPred] : amtPred none none x = true))]
        exact List.filter_true l
      simp only [sumFloats_ok h, hf]
    | some m =>
      have hf : l.filter (fun t => decide (amountVal t ≤ m)) = l.filter (amtPred none (some m)) :=
        List.filter_congr (fun x _ => by simp [amtPred])
      simp only [filterME_ok (fun t ht => maxTest_of_ok (h t ht) m), hf,
        sumFloats_ok (hmem1 (amtPred none (some m)))]
  | some m =>
    cases mx with
    | none =>
      have hf : l.filter (fun t => decide (m ≤ amountVal t)) = l.filter (amtPred (some m) none) :=
        List.filter_congr (fun x _ => by simp [amtPred])
      simp only [filterME_ok (fun t ht => minTest_of_ok (h t ht) m), hf,
        sumFloats_ok (hmem1 (amtPred (some m) none))]
    | some m2 =>
      have hf : (l.filter (fun t => decide (m ≤ amountVal t))).filter
            (fun t => decide (amountVal t ≤ m2)) = l.filter (amtPred (some m) (some m2)) := by
        rw [List.filter_filter]
        exact List.filter_congr (fun x _ => by simp [amtPred, Bool.and_comm])
      simp only [filterME_ok (fun t ht => minTest_of_ok (h t ht) m),
        filterME_ok (fun t ht => maxTest_of_ok (hmem1 _ t ht) m2), hf,
        sumFloats_ok (hmem1 (amtPred (some m) (some m2)))]

theorem acount_eval {l : List TransactionTrim} {mn mx : Option ℚ}
    (h1 : negOpt mn = false) (h2 : negOpt mx = false)
    (h : ∀ t ∈ l, amountOk t = true) :
    filter_by_amount_and_count l mn mx = .ok (l.filter (amtPred mn mx)).length := by
  have hmem1 : ∀ (p : TransactionTrim → Bool), ∀ t ∈ l.filter p, amountOk t = true :=
    fun p t ht => h t (List.mem_filter.mp ht).1
  rw [filter_by_amount_and_count.eq_def, h1, h2]
  simp only [Bool.false_eq_true, if_false]
  cases mn with
  | none =>
    cases mx with
    | none =>
      have hf : l.filter (amtPred none none) = l := by
        rw [List.filter_congr (fun x _ => (by simp [amtPred] : amtPred none none x = true))]
        exact List.filter_true l
      simp only [hf]
    | some m =>
      have hf : l.filter (fun t => decide (amountVal t ≤ m)) = l.filter (amtPred none (some m)) :=
        List.filter_congr (fun x _ => by simp [amtPred])
      simp only [filterME_ok (fun t ht => maxTest_of_ok (h t ht) m), hf]
  | some m =>
    cases mx with
    | none =>
      have hf : l.filter (fun t => decide (m ≤ amountVal t)) = l.filter (amtPred (some m) none) :=
        List.filter_congr (fun x _ => by simp [amtPred])
      simp only [filterME_ok (fun t ht => minTest_of_ok (h t ht) m), hf]
    | some m2 =>
      have hf : (l.filter (fun t => decide (m ≤ amountVal t))).filter
            (fun t => decide (amountVal t ≤ m2)) = l.filter (amtPred (some m) (some m2)) := by
        rw [List.filter_filter]
        exact List.filter_congr (fun x _ => by simp [amtPred, Bool.and_comm])
      simp only [filterME_ok (fun t ht => minTest_of_ok (h t ht) m),
        filterME_ok (fun t ht => maxTest_of_ok (hmem1 _ t ht) m2), hf]

theorem dsum_eval {l : List TransactionTrim} {sd ed : Option String} {lo hi : ℚ}
    (hsd : strTruthy sd = true)
    (hp1 : matchesDatePattern (optStr sd) = true)
    (hp2 : (strTruthy ed && !matchesDatePattern (optStr ed)) = false)
    (hlo : strptimeYMD (optStr sd) = .ok lo)
    (hhi : (if strTruthy ed = true then strptimeYMD (optStr ed) else .ok lo) = .ok hi)
    (hts : ∀ t ∈ l, tsOk t = true) (ham : ∀ t ∈ l, amountOk t = true) :
    filter_by_date_and_sum l sd ed = .ok (((l.filter (inWindow lo hi)).map amountVal).sum) := by
  have hc1 : (strTruthy sd && !matchesDatePattern (optStr sd)) = false := by
    rw [hsd, hp1]; rfl
  have hwin : ∀ t ∈ l, dateWindowTest lo hi t = .ok (inWindow lo hi t) :=
    fun t ht => dateWindowTest_of_ok (hts t ht) lo hi
  rw [filter_by_date_and_sum.eq_def]
  simp only [hc1, hp2, hsd, hp1, Bool.not_true, Bool.and_false, Bool.false_and, Bool.true_and,
    Bool.false_eq_true, if_false, if_true, hlo, hhi,
    filterME_ok hwin, sumFloats_ok (fun t ht => ham t (List.mem_filter.mp ht).1)]

theorem dcount_eval {l : List TransactionTrim} {sd ed : Option String} {lo hi : ℚ}
    (hsd : strTruthy sd = true)
    (hp1 : matchesDatePattern (optStr sd) = true)
    (hp2 : (strTruthy ed && !matchesDatePattern (optStr ed)) = false)
    (hlo : strptimeYMD (optStr sd) = .ok lo)
    (hhi : (if strTruthy ed = true then strptimeYMD (optStr ed) else .ok lo) = .ok hi)
    (hts : ∀ t ∈ l, tsOk t = true) :
    filter_by_date_and_count l sd ed = .ok (l.filter (inWindow lo hi)).length := by
  have hc1 : (strTruthy sd && !matchesDatePattern (optStr sd)) = false := by
    rw [hsd, hp1]; rfl
  have hwin : ∀ t ∈ l, dateWindowTest lo hi t = .ok (inWindow lo hi t) :=
    fun t ht => dateWindowTest_of_ok (hts t ht) lo hi
  rw [filter_by_date_and_count.eq_def]
  simp only [hc1, hp2, hsd, hp1, Bool.not_true, Bool.and_false, Bool.false_and, Bool.true_and,
    Bool.false_eq_true, if_false, if_true, hlo, hhi,
    filterME_ok hwin]

theorem dsum_nostart {l : List TransactionTrim} {sd ed : Option String}
    (hsd : strTruthy sd = false)
    (hp2 : (strTruthy ed && !matchesDatePattern (optStr ed)) = false) :
    filter_by_date_and_sum l sd ed = sumFloats l := by
  have hc1 : (strTruthy sd && !matchesDatePattern (optStr sd)) = false := by
    rw [hsd]; rfl
  rw [filter_by_date_and_sum.eq_def]
  simp only [hc1, hp2, hsd, Bool.false_and, Bool.false_eq_true, if_false]

theorem dcount_nostart {l : List TransactionTrim} {sd ed : Option String}
    (hsd : strTruthy sd = false)
    (hp2 : (strTruthy ed && !matchesDatePattern (optStr ed)) = false) :
    filter_by_date_and_count l sd ed = .ok l.length := by
  have hc1 : (strTruthy sd && !matchesDatePattern (optStr sd)) = false := by
    rw [hsd]; rfl
  rw [filter_by_date_and_count.eq_def]
  simp only [hc1, hp2, hsd, Bool.false_and, Bool.false_eq_true, if_false]

theorem dsum_start_parse_error {l : List TransactionTrim} {sd ed : Option String}
    {err : ToolError} (hsd : strTruthy sd = true)
    (hp1 : matchesDatePattern (optStr sd) = true)
    (hp2 : (strTruthy ed && !matchesDatePattern (optStr ed)) = false)
    (hst : strptimeYMD (optStr sd) = .error err) :
    filter_by_date_and_sum l sd ed = .error err := by
  have hc1 : (strTruthy sd && !matchesDatePattern (optStr sd)) = false := by
    rw [hsd, hp1]; rfl
  rw [filter_by_date_and_sum.eq_def]
  simp only [hc1, hp2, hsd, hp1, Bool.not_true, Bool.and_false, Bool.false_and, Bool.true_and,
    Bool.false_eq_true, if_false, if_true, hst]

theorem dcount_start_parse_error {l : List TransactionTrim} {sd ed : Option String}
    {err : ToolError} (hsd : strTruthy sd = true)
    (hp1 : matchesDatePattern (optStr sd) = true)
    (hp2 : (strTruthy ed && !matchesDatePattern (optStr ed)) = false)
    (hst : strptimeYMD (optStr sd) = .error err) :
    filter_by_date_and_count l sd ed = .error err := by
  have hc1 : (strTruthy sd && !matchesDatePattern (optStr sd)) = false := by
    rw [hsd, hp1]; rfl
  rw [filter_by_date_and_count.eq_def]
  simp only [hc1, hp2, hsd, hp1, Bool.not_true, Bool.and_false, Bool.false_and, Bool.true_and,
    Bool.false_eq_true, if_false, if_true, hst]

theorem dsum_end_parse_error {l : List TransactionTrim} {sd ed : Option String}
    {lo : ℚ} {err : ToolError} (hsd : strTruthy sd = true)
    (hp1 : matchesDatePattern (optStr sd) = true)
    (hed : strTruthy ed = true)
    (hp2 : matchesDatePattern (optStr ed) = true)
    (hlo : strptimeYMD (optStr sd) = .ok lo)
    (hste : strptimeYMD (optStr ed) = .error err) :
    filter_by_date_and_sum l sd ed = .error err := by
  have hc1 : (strTruthy sd && !matchesDatePattern (optStr sd)) = false := by
    rw [hsd, hp1]; rfl
  have hc2 : (strTruthy ed && !matchesDatePattern (optStr ed)) = false := by
    rw [hed, hp2]; rfl
  rw [filter_by_date_and_sum.eq_def]
  simp only [hc1, hc2, hsd, hed, hp1, hp2, Bool.not_true, Bool.and_false, Bool.false_and,
    Bool.true_and, Bool.false_eq_true, if_false, if_true, hlo, hste]

theorem dcount_end_parse_error {l : List TransactionTrim} {sd ed : Option String}
    {lo : ℚ} {err : ToolError} (hsd : strTruthy sd = true)
    (hp1 : matchesDatePattern (optStr sd) = true)
    (hed : strTruthy ed = true)
    (hp2 : matchesDatePattern (optStr ed) = true)
    (hlo : strptimeYMD (optStr sd) = .ok lo)
    (hste : strptimeYMD (optStr ed) = .error err) :
    filter_by_date_and_count l sd ed = .error err := by
  have hc1 : (strTruthy sd && !matchesDatePattern (optStr sd)) = false := by
    rw [hsd, hp1]; rfl
  have hc2 : (strTruthy ed && !matchesDatePattern (optStr ed)) = false := by
    rw [hed, hp2]; rfl
  rw [filter_by_date_and_count.eq_def]
  simp only [hc1, hc2, hsd, hed, hp1, hp2, Bool.not_true, Bool.and_false, Bool.false_and,
    Bool.true_and, Bool.false_eq_true, if_false, if_true, hlo, hste]

theorem exceptMap_error {α β : Type} (f : α → β) (e : ToolError) :
    Except.map f (Except.error e : Except ToolError α) = .error e := rfl

theorem exceptMap_ok {α β : Type} (f : α → β) (a : α) :
    Except.map f (Except.ok a : Except ToolError α) = .ok (f a) := rfl

theorem retype_amount (ty : String) (t : TransactionTrim) :
    (retype ty t).amount = t.amount := rfl

theorem retype_date (ty : String) (t : TransactionTrim) :
    (retype ty t).transactionDate = t.transactionDate := rfl

theorem sumFloatsFrom_retype (ty : String) :
    ∀ (l : List TransactionTrim) (a : ℚ),
      sumFloatsFrom a (l.map (retype ty)) = sumFloatsFrom a l
  | [], _ => rfl
  | t :: ts, a => by
    simp only [List.map_cons, sumFloatsFrom, retype_amount]
    cases floatOfAmount t.amount with
    | error e => rfl
    | ok q => exact sumFloatsFrom_retype ty ts (a + q)

theorem dateWindowTest_retype (ty : String) (lo hi : ℚ) (t : TransactionTrim) :
    dateWindowTest lo hi (retype ty t) = dateWindowTest lo hi t := rfl

theorem filterME_retype (ty : String) (lo hi : ℚ) :
    ∀ l : List TransactionTrim,
      filterME (dateWindowTest lo hi) (l.map (retype ty)) =
        Except.map (List.map (retype ty)) (filterME (dateWindowTest lo hi) l)
  | [] => rfl
  | t :: ts => by
    simp only [List.map_cons, filterME, dateWindowTest_retype, filterME_retype ty lo hi ts]
    cases dateWindowTest lo hi t with
    | error e => rfl
    | ok b =>
      cases filterME (dateWindowTest lo hi) ts with
      | error e => rfl
      | ok rest => cases b <;> simp [Except.map]

theorem dsum_retype (ty : String) (l : List TransactionTrim) (sd ed : Option String) :
    filter_by_date_and_sum (l.map (retype ty)) sd ed = filter_by_date_and_sum l sd ed := by
  rw [filter_by_date_and_sum.eq_def, filter_by_date_and_sum.eq_def]
  split_ifs
  any_goals rfl
  any_goals exact sumFloatsFrom_retype ty l 0
  all_goals
    cases strptimeYMD (optStr sd) with
    | error e => rfl
    | ok lo =>
      dsimp only
      first
      | cases strptimeYMD (optStr ed) with
        | error e => rfl
        | ok hi =>
          dsimp only
          rw [filterME_retype]
          cases filterME (dateWindowTest lo hi) l with
          | error e => rfl
          | ok f => exact sumFloatsFrom_retype ty f 0
      | (rw [filterME_retype]
         cases filterME (dateWindowTest lo lo) l with
         | error e => rfl
         | ok f => exact sumFloatsFrom_retype ty f 0)

theorem dcount_retype (ty : String) (l : List TransactionTrim) (sd ed : Option String) :
    filter_by_date_and_count (l.map (retype ty)) sd ed = filter_by_date_and_count l sd ed := by
  rw [filter_by_date_and_count.eq_def, filter_by_date_and_count.eq_def]
  split_ifs
  any_goals rfl
  any_goals simp only [List.length_map]
  all_goals
    cases strptimeYMD (optStr sd) with
    | error e => rfl
    | ok lo =>
      dsimp only
      first
      | cases strptimeYMD (optStr ed) with
        | error e => rfl
        | ok hi =>
          dsimp only
          rw [filterME_retype]
          cases filterME (dateWindowTest lo hi) l with
          | error e => rfl
          | ok f => simp [exceptMap_ok, List.length_map]
      | (rw [filterME_retype]
         cases filterME (dateWindowTest lo lo) l with
         | error e => rfl
         | ok f => simp [exceptMap_ok, List.length_map])

theorem validateRecord_ok_iff (t : RawTransaction) :
    validateRecord t = .ok () ↔ recordValidB t = true := by
  unfold validateRecord recordValidB
  split_ifs with h1 h2 h3 h4 h5 h6 <;>
    simp_all [Bool.not_eq_true, beq_iff_eq]
  · intro _ hstr
    cases h6 with
    | inl h6 => rw [h6] at hstr; exact absurd hstr (by simp)
    | inr h6 => exact h6
  · by_cases hc : t.type = PyVal.vstr "credit"
    · exact Or.inl hc
    · exact Or.inr (h3 hc)

theorem validateRecords_ok_iff :
    ∀ ts : List RawTransaction,
      validateRecords ts = .ok () ↔ ∀ t ∈ ts, recordValidB t = true
  | [] => by simp [validateRecords]
  | t :: ts => by
    have hstep : validateRecords (t :: ts) =
        (match validateRecord t with
          | .error e => .error e
          | .ok _ => validateRecords ts) := rfl
    rw [hstep]
    cases hv : validateRecord t with
    | error e =>
      constructor
      · intro h; exact absurd h (by simp)
      · intro h
        have hrec := (validateRecord_ok_iff t).mpr (h t (List.mem_cons_self t ts))
        rw [hv] at hrec
        cases hrec
    | ok u =>
      cases u
      rw [validateRecords_ok_iff ts]
      constructor
      · intro h x hx
        rcases List.mem_cons.mp hx with rfl | hx2
        · exact (validateRecord_ok_iff x).mp hv
        · exact h x hx2
      · intro h x hx
        exact h x (List.mem_cons_of_mem _ hx)

/-! ### The claims -/

/-- C1: the claim says the date filters keep exactly the transactions with
`start_date 00:00:00 ≤ t ≤ end_date 23:59:59` UTC.  The code builds the upper
bound as `end_date` at *midnight*, so a transaction at 10:00 on the single-day
window `2025-01-15 .. 2025-01-15` lies inside the spec window (conjunct 2) but
is dropped by both primitives (conjuncts 3 and 4), while an exact-midnight
transaction is kept (conjunct 5). -/
theorem C1_end_bound_is_midnight_of_end_date :
    txTimestamp txC1 = .ok (midnightSec 2025 1 15 + 36000) ∧
    specInWindowB (midnightSec 2025 1 15) (midnightSec 2025 1 15)
      (midnightSec 2025 1 15 + 36000) = true ∧
    filter_by_date_and_sum [txC1] (some "2025-01-15") (some "2025-01-15") = .ok 0 ∧
    filter_by_date_and_count [txC1] (some "2025-01-15") (some "2025-01-15") = .ok 0 ∧
    filter_by_date_and_sum [txC1mid] (some "2025-01-15") (some "2025-01-15") = .ok 100 :=
  ⟨by decide, by decide, by decide, by decide, by decide⟩

/-- C2: the claim says the date primitives take an optional transaction-kind
parameter.  They do not: their signatures are `(transactions, start_date,
end_date)` only.  Formally, replacing every transaction's kind field changes
no result of either date primitive (conjunct 1), and a mixed credit/debit
window is aggregated in full with no way to restrict it (conjuncts 2 and 3). -/
theorem C2_date_primitives_have_no_kind_filter :
    (∀ (ty : String) (l : List TransactionTrim) (sd ed : Option String),
      filter_by_date_and_sum (l.map (retype ty)) sd ed = filter_by_date_and_sum l sd ed ∧
      filter_by_date_and_count (l.map (retype ty)) sd ed = filter_by_date_and_count l sd ed) ∧
    filter_by_date_and_sum [txC2credit, txC2debit]
      (some "2025-01-15") (some "2025-01-15") = .ok 150 ∧
    filter_by_date_and_count [txC2credit, txC2debit]
      (some "2025-01-15") (some "2025-01-15") = .ok 2 :=
  ⟨fun ty l sd ed => ⟨dsum_retype ty l sd ed, dcount_retype ty l sd ed⟩, by decide, by decide⟩

/-- C3: the claim says every aggregation primitive normalizes string amounts
with thousands separators before arithmetic.  The repository's normalizer
`convert_to_float` does handle `"1,000"` (conjunct 1), but the primitives call
plain `float(...)`, which raises on the comma (conjuncts 2 and 3), unlike the
equivalent numeric amount (conjunct 4). -/
theorem C3_string_amounts_not_normalized :
    convert_to_float (.str "1,000") = some 1000 ∧
    filter_by_type_and_sum [txC3comma] none =
      .error (.parseError "could not convert string to float: 1,000") ∧
    filter_by_amount_and_sum [txC3comma] (some 0) none =
      .error (.parseError "could not convert string to float: 1,000") ∧
    filter_by_type_and_sum [txC3num] none = .ok 1000 :=
  ⟨by decide, by decide, by decide, by decide⟩

/-- C4 counterexample: the claim quantifies over every transaction list, but
on a list with two amounts `"1,000"` and `"2,000"` (legal per the data model)
the sum primitive raises at the first malformed amount, so the two orders
produce different errors. -/
theorem C4_counterexample_order_dependent_error :
    filter_by_type_and_sum [txC4a, txC4b] none ≠
      filter_by_type_and_sum [txC4b, txC4a] none := by decide

/-- In the exact-rational model, on lists whose amounts and timestamps all
parse, each primitive returns the same result on any permutation, for all
parameter values.  (Exactness matters only for the sum conclusions; the
claim-level statement restricts those to the regime where the source's IEEE
accumulation is exact as well.) -/
theorem perm_invariant_exact_model (l1 l2 : List TransactionTrim)
    (hp : l1.Perm l2) (hwf : ∀ t ∈ l1, amountOk t = true ∧ tsOk t = true) :
    (∀ sd ed, filter_by_date_and_sum l1 sd ed = filter_by_date_and_sum l2 sd ed ∧
      filter_by_date_and_count l1 sd ed = filter_by_date_and_count l2 sd ed) ∧
    (∀ tt, filter_by_type_and_sum l1 tt = filter_by_type_and_sum l2 tt ∧
      filter_by_type_and_count l1 tt = filter_by_type_and_count l2 tt) ∧
    (∀ mn mx, filter_by_amount_and_sum l1 mn mx = filter_by_amount_and_sum l2 mn mx ∧
      filter_by_amount_and_count l1 mn mx = filter_by_amount_and_count l2 mn mx) := by
  have ham1 : ∀ t ∈ l1, amountOk t = true := fun t ht => (hwf t ht).1
  have hts1 : ∀ t ∈ l1, tsOk t = true := fun t ht => (hwf t ht).2
  have ham2 : ∀ t ∈ l2, amountOk t = true := fun t ht => ham1 t (hp.mem_iff.mpr ht)
  have hts2 : ∀ t ∈ l2, tsOk t = true := fun t ht => hts1 t (hp.mem_iff.mpr ht)
  have hsum : ∀ p : TransactionTrim → Bool,
      ((l1.filter p).map amountVal).sum = ((l2.filter p).map amountVal).sum :=
    fun p => ((hp.filter p).map amountVal).sum_eq
  have hlen : ∀ p : TransactionTrim → Bool,
      (l1.filter p).length = (l2.filter p).length :=
    fun p => (hp.filter p).length_eq
  refine ⟨fun sd ed => ?_, fun tt => ?_, fun mn mx => ?_⟩
  · cases hc1 : (strTruthy sd && !matchesDatePattern (optStr sd)) with
    | true =>
      constructor
      · rw [filter_by_date_and_sum.eq_def, filter_by_date_and_sum.eq_def]
        simp [hc1]
      · rw [filter_by_date_and_count.eq_def, filter_by_date_and_count.eq_def]
        simp [hc1]
    | false =>
      cases hc2 : (strTruthy ed && !matchesDatePattern (optStr ed)) with
      | true =>
        constructor
        · rw [filter_by_date_and_sum.eq_def, filter_by_date_and_sum.eq_def]
          simp [hc1, hc2]
        · rw [filter_by_date_and_count.eq_def, filter_by_date_and_count.eq_def]
          simp [hc1, hc2]
      | false =>
        cases hsd : strTruthy sd with
        | false =>
          constructor
          · rw [dsum_nostart hsd hc2, dsum_nostart hsd hc2,
              sumFloats_ok ham1, sumFloats_ok ham2, (hp.map amountVal).sum_eq]
          · rw [dcount_nostart hsd hc2, dcount_nostart hsd hc2, hp.length_eq]
        | true =>
          have hp1 : matchesDatePattern (optStr sd) = true := by
            cases hpat : matchesDatePattern (optStr sd)
            · rw [hsd, hpat] at hc1
              exact absurd hc1 (by simp)
            · rfl
          cases hst : strptimeYMD (optStr sd) with
          | error err =>
            exact ⟨(dsum_start_parse_error hsd hp1 hc2 hst).trans
                (dsum_start_parse_error hsd hp1 hc2 hst).symm,
              (dcount_start_parse_error hsd hp1 hc2 hst).trans
                (dcount_start_parse_error hsd hp1 hc2 hst).symm⟩
          | ok lo =>
            cases hhi : (if strTruthy ed = true then strptimeYMD (optStr ed)
                else Except.ok lo) with
            | error err =>
              have hed : strTruthy ed = true := by
                cases he : strTruthy ed
                · rw [he] at hhi
                  simp at hhi
                · rfl
              have hp2e : matchesDatePattern (optStr ed) = true := by
                cases hpe : matchesDatePattern (optStr ed)
                · rw [hed, hpe] at hc2
                  exact absurd hc2 (by simp)
                · rfl
              have hste : strptimeYMD (optStr ed) = .error err := by
                rw [hed] at hhi
                simpa using hhi
              exact ⟨(dsum_end_parse_error hsd hp1 hed hp2e hst hste).trans
                  (dsum_end_parse_error hsd hp1 hed hp2e hst hste).symm,
                (dcount_end_parse_error hsd hp1 hed hp2e hst hste).trans
                  (dcount_end_parse_error hsd hp1 hed hp2e hst hste).symm⟩
            | ok hi =>
              constructor
              · rw [dsum_eval hsd hp1 hc2 hst hhi hts1 ham1,
                  dsum_eval hsd hp1 hc2 hst hhi hts2 ham2, hsum]
              · rw [dcount_eval hsd hp1 hc2 hst hhi hts1,
                  dcount_eval hsd hp1 hc2 hst hhi hts2, hlen]
  · have hperm : (typeFiltered tt l1).Perm (typeFiltered tt l2) := by
      cases tt with
      | none => exact hp
      | some ty => exact hp.filter _
    constructor
    · rw [tsum_eval tt ham1, tsum_eval tt ham2, (hperm.map amountVal).sum_eq]
    · rw [tcount_eval, tcount_eval, hperm.length_eq]
  · cases hn1 : negOpt mn with
    | true =>
      constructor
      · rw [filter_by_amount_and_sum.eq_def, filter_by_amount_and_sum.eq_def]
        simp [hn1]
      · rw [filter_by_amount_and_count.eq_def, filter_by_amount_and_count.eq_def]
        simp [hn1]
    | false =>
      cases hn2 : negOpt mx with
      | true =>
        constructor
        · rw [filter_by_amount_and_sum.eq_def, filter_by_amount_and_sum.eq_def]
          simp [hn1, hn2]
        · rw [filter_by_amount_and_count.eq_def, filter_by_amount_and_count.eq_def]
          simp [hn1, hn2]
      | false =>
        constructor
        · rw [asum_eval hn1 hn2 ham1, asum_eval hn1 hn2 ham2, hsum]
        · rw [acount_eval hn1 hn2 ham1, acount_eval hn1 hn2 ham2, hlen]

/-- C4 (amended): on transaction lists whose amounts and timestamps all
parse, the three count primitives return the same result on any permutation
of the list, for all parameter values.  The three sum primitives do so when
additionally every amount value is a non-negative integer and the amounts
total at most 2^53 = 9007199254740992 — the regime in which the source's
left-to-right IEEE-double accumulation is exact, so reordering cannot change
its result either.  (For general float amounts the source's accumulation is
order-dependent even on parseable lists.) -/
theorem C4_amended_permutation_invariant (l1 l2 : List TransactionTrim)
    (hp : l1.Perm l2) (hwf : ∀ t ∈ l1, amountOk t = true ∧ tsOk t = true) :
    ((∀ sd ed, filter_by_date_and_count l1 sd ed = filter_by_date_and_count l2 sd ed) ∧
      (∀ tt, filter_by_type_and_count l1 tt = filter_by_type_and_count l2 tt) ∧
      (∀ mn mx, filter_by_amount_and_count l1 mn mx =
        filter_by_amount_and_count l2 mn mx)) ∧
    ((∀ t ∈ l1, (amountVal t).den = 1 ∧ 0 ≤ (amountVal t).num) →
      (l1.map amountVal).sum ≤ 9007199254740992 →
      (∀ sd ed, filter_by_date_and_sum l1 sd ed = filter_by_date_and_sum l2 sd ed) ∧
      (∀ tt, filter_by_type_and_sum l1 tt = filter_by_type_and_sum l2 tt) ∧
      (∀ mn mx, filter_by_amount_and_sum l1 mn mx =
        filter_by_amount_and_sum l2 mn mx)) := by
  have h := perm_invariant_exact_model l1 l2 hp hwf
  exact ⟨⟨fun sd ed => (h.1 sd ed).2, fun tt => (h.2.1 tt).2,
      fun mn mx => (h.2.2 mn mx).2⟩,
    fun _ _ => ⟨fun sd ed => (h.1 sd ed).1, fun tt => (h.2.1 tt).1,
      fun mn mx => (h.2.2 mn mx).1⟩⟩

theorem C4_amended_witness :
    filter_by_type_and_count [txC4w1, txC4w2] none =
      filter_by_type_and_count [txC4w2, txC4w1] none ∧
    filter_by_date_and_count [txC4w1, txC4w2] (some "2025-01-01") (some "2025-12-31") =
      filter_by_date_and_count [txC4w2, txC4w1] (some "2025-01-01") (some "2025-12-31") ∧
    filter_by_type_and_sum [txC4w1, txC4w2] none =
      filter_by_type_and_sum [txC4w2, txC4w1] none ∧
    filter_by_amount_and_sum [txC4w1, txC4w2] (some 5) (some 100) =
      filter_by_amount_and_sum [txC4w2, txC4w1] (some 5) (some 100) := by
  have h := C4_amended_permutation_invariant [txC4w1, txC4w2] [txC4w2, txC4w1]
    (by decide) (by decide)
  have hs := h.2 (by decide) (by decide)
  exact ⟨h.1.2.1 none, h.1.1 (some "2025-01-01") (some "2025-12-31"),
    hs.2.1 none, hs.2.2 (some 5) (some 100)⟩

/-- C5: a request with an empty prompt, an empty thread identifier, a
non-list transaction payload, a present non-boolean `get_audio`, or any
transaction record violating the record invariants is rejected as a client
error before the decision engine is invoked; one invalid record rejects the
whole request. -/
theorem C5_request_validation_gate (r : InvokeRequest)
    (h : r.prompt = .vstr "" ∨ r.thread_id = .vstr "" ∨
      (∃ v, r.transactions = .nonList v) ∨
      (r.get_audio ≠ .vnone ∧ isBoolV r.get_audio = false) ∨
      (∃ ts, r.transactions = .pylist ts ∧ ∃ t ∈ ts, recordValidB t = false)) :
    (invoke_graph r).isClientError = true := by
  cases hv : validate_invoke_request r with
  | error e =>
    rw [invoke_graph.eq_def, hv]
    rfl
  | ok u =>
    cases u
    exfalso
    unfold validate_invoke_request at hv
    by_cases hq1 : (!isStrV r.prompt || (strV r.prompt).isEmpty) = true
    · rw [if_pos hq1] at hv
      cases hv
    · rw [if_neg hq1] at hv
      by_cases hq2 : (!isStrV r.thread_id || (strV r.thread_id).isEmpty) = true
      · rw [if_pos hq2] at hv
        cases hv
      · rw [if_neg hq2] at hv
        cases htr : r.transactions with
        | nonList v =>
          rw [htr] at hv
          cases hv
        | pylist ts =>
          rw [htr] at hv
          dsimp only at hv
          by_cases hga : (r.get_audio ≠ PyVal.vnone ∧ (!isBoolV r.get_audio) = true)
          · rw [if_pos hga] at hv
            cases hv
          · rw [if_neg hga] at hv
            have hrec := (validateRecords_ok_iff ts).mp hv
            rcases h with h | h | ⟨v, hveq⟩ | ⟨hne, hnb⟩ | ⟨ts2, hts2, t, htm, hbad⟩
            · exact hq1 (by rw [h]; rfl)
            · exact hq2 (by rw [h]; rfl)
            · rw [htr] at hveq
              cases hveq
            · exact hga ⟨hne, by rw [hnb]; rfl⟩
            · rw [htr] at hts2
              injection hts2 with hts2e
              subst hts2e
              have hval := hrec t htm
              rw [hbad] at hval
              cases hval

theorem C5_witness : (invoke_graph reqC5bad).isClientError = true :=
  C5_request_validation_gate reqC5bad (Or.inl rfl)

/-- C6 counterexample: `"2025-13-40"` matches the `YYYY-MM-DD` pattern, and
with `start_date` absent it is never parsed, so both primitives aggregate the
whole list instead of failing — refuting "always fails regardless of the
other parameters". -/
theorem C6_counterexample_end_date_ignored :
    filter_by_date_and_count [txC6] none (some "2025-13-40") = .ok 1 ∧
    filter_by_date_and_sum [txC6] none (some "2025-13-40") = .ok 100 :=
  ⟨by decide, by decide⟩

/-- C6 (amended): a supplied date that fails the `YYYY-MM-DD` pattern fails
with a FormatError before any filtering (parts 1 and 2); a pattern-matching
but calendar-invalid date fails with the strptime error before any filtering
when it is the start date (part 3), or when it is the end date and a valid
start date is also supplied (part 4).  With no start date, the end date is
only pattern-checked (see the counterexample).  Every failure is the same for
every transaction list, i.e. happens before any filtering. -/
theorem C6_amended_date_validation (l : List TransactionTrim) (sd ed : Option String) :
    (strTruthy sd = true → matchesDatePattern (optStr sd) = false →
      filter_by_date_and_sum l sd ed =
        .error (.formatError "start_date must be in YYYY-MM-DD format") ∧
      filter_by_date_and_count l sd ed =
        .error (.formatError "start_date must be in YYYY-MM-DD format")) ∧
    ((strTruthy sd = false ∨ matchesDatePattern (optStr sd) = true) →
      strTruthy ed = true → matchesDatePattern (optStr ed) = false →
      filter_by_date_and_sum l sd ed =
        .error (.formatError "end_date must be in YYYY-MM-DD format") ∧
      filter_by_date_and_count l sd ed =
        .error (.formatError "end_date must be in YYYY-MM-DD format")) ∧
    (∀ err, strTruthy sd = true → matchesDatePattern (optStr sd) = true →
      (strTruthy ed && !matchesDatePattern (optStr ed)) = false →
      strptimeYMD (optStr sd) = .error err →
      filter_by_date_and_sum l sd ed = .error err ∧
      filter_by_date_and_count l sd ed = .error err) ∧
    (∀ lo err, strTruthy sd = true → matchesDatePattern (optStr sd) = true →
      strTruthy ed = true → matchesDatePattern (optStr ed) = true →
      strptimeYMD (optStr sd) = .ok lo → strptimeYMD (optStr ed) = .error err →
      filter_by_date_and_sum l sd ed = .error err ∧
      filter_by_date_and_count l sd ed = .error err) := by
  refine ⟨?_, ?_, ?_, ?_⟩
  · intro hsd hpat
    have hc1 : (strTruthy sd && !matchesDatePattern (optStr sd)) = true := by
      rw [hsd, hpat]; rfl
    constructor
    · rw [filter_by_date_and_sum.eq_def]
      simp [hc1]
    · rw [filter_by_date_and_count.eq_def]
      simp [hc1]
  · intro hgood hed hpe
    have hc1 : (strTruthy sd && !matchesDatePattern (optStr sd)) = false := by
      cases hgood with
      | inl hg => rw [hg]; rfl
      | inr hg => rw [hg]; simp
    have hc2 : (strTruthy ed && !matchesDatePattern (optStr ed)) = true := by
      rw [hed, hpe]; rfl
    constructor
    · rw [filter_by_date_and_sum.eq_def]
      simp [hc1, hc2]
    · rw [filter_by_date_and_count.eq_def]
      simp [hc1, hc2]
  · intro err hsd hp1 hc2 hst
    exact ⟨dsum_start_parse_error hsd hp1 hc2 hst,
      dcount_start_parse_error hsd hp1 hc2 hst⟩
  · intro lo err hsd hp1 hed hp2e hlo hste
    exact ⟨dsum_end_parse_error hsd hp1 hed hp2e hlo hste,
      dcount_end_parse_error hsd hp1 hed hp2e hlo hste⟩

theorem C6_amended_witness :
    filter_by_date_and_sum [txC6] (some "2025-13-40") none =
      .error (.parseError "time data 2025-13-40 does not match format %Y-%m-%d") ∧
    filter_by_date_and_count [txC6] (some "2025-13-40") none =
      .error (.parseError "time data 2025-13-40 does not match format %Y-%m-%d") :=
  (C6_amended_date_validation [txC6] (some "2025-13-40") none).2.2.1
    (.parseError "time data 2025-13-40 does not match format %Y-%m-%d")
    (by decide) (by decide) (by decide) (by decide)

/-- C7: with non-negative bounds and parseable amounts, the amount primitives
select exactly the transactions with `min_amount ≤ amount ≤ max_amount`, both
bounds inclusive, and sum/count that subset. -/
theorem C7_amount_range_inclusive (l : List TransactionTrim) (mn mx : ℚ)
    (hmn : 0 ≤ mn) (hmx : 0 ≤ mx) (h : ∀ t ∈ l, amountOk t = true) :
    filter_by_amount_and_sum l (some mn) (some mx) =
      .ok (((l.filter (fun t => decide (mn ≤ amountVal t) &&
        decide (amountVal t ≤ mx))).map amountVal).sum) ∧
    filter_by_amount_and_count l (some mn) (some mx) =
      .ok ((l.filter (fun t => decide (mn ≤ amountVal t) &&
        decide (amountVal t ≤ mx))).length) := by
  have h1 : negOpt (some mn) = false := decide_eq_false (not_lt.mpr hmn)
  have h2 : negOpt (some mx) = false := decide_eq_false (not_lt.mpr hmx)
  exact ⟨asum_eval h1 h2 h, acount_eval h1 h2 h⟩

theorem C7_witness :
    filter_by_amount_and_sum txsC7 (some 500) (some 2000) = .ok 4000 ∧
    filter_by_amount_and_count txsC7 (some 500) (some 2000) = .ok 3 := by
  have h := C7_amount_range_inclusive txsC7 500 2000 (by norm_num) (by norm_num) (by decide)
  exact ⟨h.1.trans (by decide), h.2.trans (by decide)⟩

/-- C8: a negative `min_amount` or `max_amount` always yields the RangeError
(`ValueError` raised by the explicit non-negativity check), for both amount
primitives, and the result does not depend on the transaction list — the
failure happens before any filtering. -/
theorem C8_negative_bounds_range_error (l : List TransactionTrim) (mn mx : Option ℚ)
    (h : negOpt mn = true ∨ negOpt mx = true) :
    resIsRangeError (filter_by_amount_and_sum l mn mx) = true ∧
    resIsRangeError (filter_by_amount_and_count l mn mx) = true ∧
    filter_by_amount_and_sum l mn mx = filter_by_amount_and_sum [] mn mx ∧
    filter_by_amount_and_count l mn mx = filter_by_amount_and_count [] mn mx := by
  cases hn1 : negOpt mn with
  | true =>
    refine ⟨?_, ?_, ?_, ?_⟩
    · rw [filter_by_amount_and_sum.eq_def]
      simp [hn1, resIsRangeError]
    · rw [filter_by_amount_and_count.eq_def]
      simp [hn1, resIsRangeError]
    · rw [filter_by_amount_and_sum.eq_def, filter_by_amount_and_sum.eq_def]
      simp [hn1]
    · rw [filter_by_amount_and_count.eq_def, filter_by_amount_and_count.eq_def]
      simp [hn1]
  | false =>
    have hn2 : negOpt mx = true := by
      rcases h with h | h
      · exact absurd h (by simp [hn1])
      · exact h
    refine ⟨?_, ?_, ?_, ?_⟩
    · rw [filter_by_amount_and_sum.eq_def]
      simp [hn1, hn2, resIsRangeError]
    · rw [filter_by_amount_and_count.eq_def]
      simp [hn1, hn2, resIsRangeError]
    · rw [filter_by_amount_and_sum.eq_def, filter_by_amount_and_sum.eq_def]
      simp [hn1, hn2]
    · rw [filter_by_amount_and_count.eq_def, filter_by_amount_and_count.eq_def]
      simp [hn1, hn2]

theorem C8_witness :
    resIsRangeError (filter_by_amount_and_sum [txC8] (some (-5)) none) = true ∧
    resIsRangeError (filter_by_amount_and_count [txC8] none (some (-1))) = true := by
  have h1 := C8_negative_bounds_range_error [txC8] (some (-5)) none (Or.inl (by decide))
  have h2 := C8_negative_bounds_range_error [txC8] none (some (-1)) (Or.inr (by decide))
  exact ⟨h1.1, h2.2.1⟩

/-- C9: with the kind argument omitted, the type primitives aggregate the
entire list; with a kind selecting an empty subset (credit over an all-debit
list) the sum variant returns `0.0` without error and the count variant
returns `0`. -/
theorem C9_type_filter_defaults (l : List TransactionTrim) :
    (filter_by_type_and_sum l none = sumFloats l ∧
      filter_by_type_and_count l none = .ok l.length) ∧
    ((∀ t ∈ l, t.type = "debit") →
      filter_by_type_and_sum l (some .credit) = .ok 0 ∧
      filter_by_type_and_count l (some .credit) = .ok 0) := by
  constructor
  · constructor
    · cases l <;> rfl
    · rfl
  · intro hdeb
    have hf : typeFiltered (some .credit) l = [] := by
      rw [typeFiltered, List.filter_eq_nil_iff]
      intro t ht
      rw [hdeb t ht]
      decide
    constructor
    · show (if (typeFiltered (some .credit) l).isEmpty = true then Except.ok 0
        else sumFloats (typeFiltered (some .credit) l)) = .ok 0
      rw [hf]
      rfl
    · show Except.ok ((typeFiltered (some .credit) l).length : Int) = .ok 0
      rw [hf]
      rfl

theorem C9_witness :
    filter_by_type_and_sum txsC9 (some .credit) = .ok 0 ∧
    filter_by_type_and_count txsC9 (some .credit) = .ok 0 ∧
    filter_by_type_and_sum txsC9 none = .ok 100 ∧
    filter_by_type_and_count txsC9 none = .ok 2 := by
  have h := C9_type_filter_defaults txsC9
  have hd := h.2 (by decide)
  exact ⟨hd.1, hd.2, h.1.1.trans (by decide), h.1.2.trans (by decide)⟩

/-- C10: with `end_date` supplied but `start_date` absent, the date primitives
pattern-check the end date and then ignore it: a pattern-valid end date gives
the aggregate of the whole list (part 1), while a pattern-invalid one still
raises the FormatError (part 2). -/
theorem C10_end_without_start_no_filtering (l : List TransactionTrim) (e : String) :
    (matchesDatePattern e = true →
      filter_by_date_and_sum l none (some e) = sumFloats l ∧
      filter_by_date_and_count l none (some e) = .ok l.length) ∧
    (e ≠ "" → matchesDatePattern e = false →
      filter_by_date_and_sum l none (some e) =
        .error (.formatError "end_date must be in YYYY-MM-DD format") ∧
      filter_by_date_and_count l none (some e) =
        .error (.formatError "end_date must be in YYYY-MM-DD format")) := by
  constructor
  · intro hp
    have hc2 : (strTruthy (some e) && !matchesDatePattern (optStr (some e))) = false := by
      simp [optStr, hp]
    exact ⟨dsum_nostart rfl hc2, dcount_nostart rfl hc2⟩
  · intro hne hp
    have hemp : e.isEmpty = false := by
      cases he : e.isEmpty
      · rfl
      · exact absurd ((String.isEmpty_iff e).mp he) hne
    have hc1 : (strTruthy (none : Option String) &&
        !matchesDatePattern (optStr none)) = false := rfl
    have hc2 : (strTruthy (some e) && !matchesDatePattern (optStr (some e))) = true := by
      simp [strTruthy, optStr, hemp, hp]
    constructor
    · rw [filter_by_date_and_sum.eq_def]
      simp only [hc1, hc2, Bool.false_eq_true, if_false, if_true]
    · rw [filter_by_date_and_count.eq_def]
      simp only [hc1, hc2, Bool.false_eq_true, if_false, if_true]

theorem C10_witness :
    filter_by_date_and_sum txsC10 none (some "2030-01-01") = .ok 100 ∧
    filter_by_date_and_count txsC10 none (some "2030-01-01") = .ok 2 := by
  have h := (C10_end_without_start_no_filtering txsC10 "2030-01-01").1 (by decide)
  exact ⟨h.1.trans (by decide), h.2.trans (by decide)⟩

end FinAgent
